import Mathlib

/-!
Verification of the software-deployment agent tools (src/software_agent/agent.py).

The tools read and write `tool_context.state`, a per-conversation string
dictionary, and the two gateway tools (`validate_workstation`,
`deploy_software`) additionally read endpoint URLs from environment
variables, fetch an identity token, and issue at most one HTTP POST.
The embedding below models the dictionary as `String → Option String`,
the environment and the two remote effects (token fetch, POST) as
explicit parameters describing what each effect would do, and every tool
as a pure function returning the Python result dict together with the
number of remote POSTs issued.
-/

namespace SoftwareAgent

/-- The conversation session state: the key-value dict `tool_context.state`. -/
def State : Type := String → Option String

/-- Python truthiness of a dict lookup: `None` and the empty string are falsy
(`if not computername`, `if not all([...])`, `if not function_url`). -/
def truthy : Option String → Bool
  | none => false
  | some s => !s.isEmpty

/-- Python f-string rendering of a possibly absent value: `None` prints as "None". -/
def pyStr : Option String → String
  | none => "None"
  | some s => s

/-- The dict `{"status": ..., "result": ...}` returned by every tool. -/
structure ToolResult where
  status : String
  result : String
deriving DecidableEq

/-- A single-quote character, used by the f-string messages. -/
def sq : String := String.singleton (Char.ofNat 39)

/-- Assignment of one key of the session dict (`tool_context.state[k] = v`). -/
def setKey (st : State) (k v : String) : State :=
  fun k2 => if k2 = k then some v else st k2

/-- Result of running an `update_*_state` tool: the mutated session state and
the returned dict. -/
structure UpdateRun where
  state : State
  res : ToolResult

/-- `update_computer_state`: saves the computer name to the session state. -/
def update_computer_state (computer_name : String) (st : State) : UpdateRun :=
  ⟨setKey st "computername" computer_name,
   ⟨"success", "Computer name " ++ sq ++ computer_name ++ sq ++ " saved."⟩⟩

/-- `update_software_state`: saves the software name to the session state. -/
def update_software_state (software_name : String) (st : State) : UpdateRun :=
  ⟨setKey st "software_name" software_name,
   ⟨"success", "Software name " ++ sq ++ software_name ++ sq ++ " saved."⟩⟩

/-- `update_user_state`: saves the user name to the session state. -/
def update_user_state (username : String) (st : State) : UpdateRun :=
  ⟨setKey st "username" username,
   ⟨"success", "Username " ++ sq ++ username ++ sq ++ " saved."⟩⟩

/-- The endpoint URLs read from environment variables; `none` models an unset
variable (`os.getenv` returns `None`). -/
structure Env where
  validateComputerUrl : Option String
  deploySoftwareUrl : Option String

/-- What `id_token.fetch_id_token` would do: return a token, or raise. -/
inductive TokenFetch where
  | ok (token : String)
  | err (detail : String)

/-- What the remote HTTP POST would do if issued. -/
inductive Remote where
  | ok (body : String) -- non-error response; `raise_for_status` passes, text relayed
  | httpError (code : Nat) (detail : String) -- `raise_for_status` raises (403, 500, ...)
  | timeout -- `httpx.TimeoutException`
  | transportError (detail : String) -- any other transport/client exception

/-- A gateway invocation: the returned dict plus the number of remote POSTs issued. -/
structure GatewayRun where
  res : ToolResult
  remoteCalls : Nat

/-- The fixed message returned by both timeout branches. -/
def timeoutResultMsg : String :=
  "The deployment has been started, but the connection timed out while waiting for a final status. Please check the system for progress."

/-- The fixed generic message returned by both `except Exception` branches. -/
def techErrorResultMsg : String :=
  "A technical error occurred while trying to start the deployment."

/-- The missing-input message of `validate_workstation`. -/
def validateMissingMsg : String :=
  "Deployment failed: Computername is missing from the conversation."

/-- The missing-input message of `deploy_software` (an f-string over the three
session values). -/
def deployMissingMsg (st : State) : String :=
  "Deployment failed: One or more parameters were missing from the conversation. Software:" ++
    (pyStr (st "software_name") ++ (" Computername:" ++
      (pyStr (st "computername") ++ (" Username:" ++ pyStr (st "username")))))

/-- `validate_workstation`: checks the env URL (an unset or empty URL raises
`ValueError`, caught by the generic handler), then the stored computer name,
then fetches a token (failure caught by the generic handler), then issues one
POST; `TimeoutException` is caught before the generic handler and reported as
a success. -/
def validate_workstation (env : Env) (tok : TokenFetch) (rem : Remote) (st : State) : GatewayRun :=
  if !truthy env.validateComputerUrl then ⟨⟨"error", techErrorResultMsg⟩, 0⟩
  else if !truthy (st "computername") then ⟨⟨"error", validateMissingMsg⟩, 0⟩
  else
    match tok with
    | .err _ => ⟨⟨"error", techErrorResultMsg⟩, 0⟩
    | .ok _ =>
      match rem with
      | .ok body => ⟨⟨"success", body⟩, 1⟩
      | .httpError _ _ => ⟨⟨"error", techErrorResultMsg⟩, 1⟩
      | .timeout => ⟨⟨"success", timeoutResultMsg⟩, 1⟩
      | .transportError _ => ⟨⟨"error", techErrorResultMsg⟩, 1⟩

/-- `deploy_software`: same shape as `validate_workstation`, with its own env
URL and all three session values required truthy (`if not all([...])`). -/
def deploy_software (env : Env) (tok : TokenFetch) (rem : Remote) (st : State) : GatewayRun :=
  if !truthy env.deploySoftwareUrl then ⟨⟨"error", techErrorResultMsg⟩, 0⟩
  else if !(truthy (st "software_name") && truthy (st "computername") && truthy (st "username")) then
    ⟨⟨"error", deployMissingMsg st⟩, 0⟩
  else
    match tok with
    | .err _ => ⟨⟨"error", techErrorResultMsg⟩, 0⟩
    | .ok _ =>
      match rem with
      | .ok body => ⟨⟨"success", body⟩, 1⟩
      | .httpError _ _ => ⟨⟨"error", techErrorResultMsg⟩, 1⟩
      | .timeout => ⟨⟨"success", timeoutResultMsg⟩, 1⟩
      | .transportError _ => ⟨⟨"error", techErrorResultMsg⟩, 1⟩

/-- Modelled from the spec: the contents of `APPROVED_SOFTWARE_LIST`, imported
from the `software_list` module which is not among the sources; the spec fixes
only that membership is case-insensitive and that "Zoom" is approved while
"Photoshop2" is not. The matching tools below take the list as a parameter, so
the theorems hold for any contents. -/
def APPROVED_SOFTWARE_LIST : List String := ["Zoom"]

/-- Python `str.lower()`: characterwise lowering. -/
def lowerStr (s : String) : String := String.mk (s.data.map Char.toLower)

/-- `verify_software_availability`: case-insensitive membership of the stored
software name in the approved list. -/
def verify_software_availability (approved : List String) (st : State) : ToolResult :=
  if !truthy (st "software_name") then
    ⟨"error", "Software name is missing from the conversation state for verification."⟩
  else
    if (approved.map lowerStr).contains (lowerStr (pyStr (st "software_name"))) then
      ⟨"success", "Software " ++ sq ++ pyStr (st "software_name") ++ sq ++
        " is available for deployment."⟩
    else
      ⟨"fail", "Software " ++ sq ++ pyStr (st "software_name") ++ sq ++
        " is not an approved software. Please choose from: " ++
        String.intercalate ", " approved ++ "."⟩

/-- `list_available_software`: lists the approved software. -/
def list_available_software (approved : List String) : ToolResult :=
  ⟨"success", "The following software is available for deployment: " ++
    String.intercalate ", " approved ++ "."⟩

/-- A concrete session state whose status and confirmation keys are populated
as the spec describes an approved, confirmed session. -/
def stApproved : State := fun k =>
  if k = "software_name" then some "Photoshop" else
  if k = "software_status" then some "Approved" else
  if k = "computername" then some "WKS-1001" else
  if k = "computer_status" then some "Validated" else
  if k = "confirmation" then some "yes" else none

/-- A concrete session state holding exactly the three collected facts. -/
def stThreeFacts : State := fun k =>
  if k = "software_name" then some "Zoom" else
  if k = "computername" then some "WKS-1001" else
  if k = "username" then some "jdoe" else none

/-- A concrete environment with both endpoint URLs configured. -/
def envBoth : Env := ⟨some "https://validate.example", some "https://deploy.example"⟩

/-- A concrete environment with neither endpoint URL configured. -/
def envNone : Env := ⟨none, none⟩

/-- The empty session state. -/
def stEmpty : State := fun _ => none

/-- Claim C9: each `update_*_state` tool writes exactly its own key of the
session state, leaves every other key unchanged, and unconditionally returns a
result with status "success", including when the provided value is the empty
string. -/
theorem C9_update_frame (v : String) (st : State) (k : String) :
    ((update_software_state v st).state k = if k = "software_name" then some v else st k) ∧
    ((update_computer_state v st).state k = if k = "computername" then some v else st k) ∧
    ((update_user_state v st).state k = if k = "username" then some v else st k) ∧
    (update_software_state v st).res.status = "success" ∧
    (update_computer_state v st).res.status = "success" ∧
    (update_user_state v st).res.status = "success" :=
  ⟨rfl, rfl, rfl, rfl, rfl, rfl⟩

/-- Claim C1 counterexample: running `update_software_state "Zoom"` on a state
whose software status key holds "Approved" and whose confirmation key holds
"yes" leaves the status key at "Approved" (not "PendingValidation") and the
confirmation key untouched: the overwrite does not reset or clear anything. -/
theorem C1_counterexample :
    (update_software_state "Zoom" stApproved).state "software_status" = some "Approved" ∧
    (update_software_state "Zoom" stApproved).state "software_status" ≠ some "PendingValidation" ∧
    (update_software_state "Zoom" stApproved).state "confirmation" = some "yes" ∧
    (update_computer_state "WKS-2002" stApproved).state "computer_status" = some "Validated" := by
  refine ⟨rfl, by decide, rfl, rfl⟩

/-- Claim C1 amended: `update_software_state` and `update_computer_state`
store only the new value under their own key; every other key of the session
state, including any status or confirmation key, is left exactly as it was, so
a previously approved or validated status survives the overwrite and no
confirmation gate is cleared by the tool. -/
theorem C1_amended (v : String) (st : State) (k : String) :
    (k ≠ "software_name" → (update_software_state v st).state k = st k) ∧
    (k ≠ "computername" → (update_computer_state v st).state k = st k) := by
  constructor
  · intro h
    show (if k = "software_name" then some v else st k) = st k
    simp [h]
  · intro h
    show (if k = "computername" then some v else st k) = st k
    simp [h]

/-- Witness for the amended claim C1 at a concrete state and key. -/
theorem C1_amended_witness :
    ("software_status" ≠ "software_name" ∧
      (update_software_state "Zoom" stApproved).state "software_status" =
        stApproved "software_status") ∧
    ("computer_status" ≠ "computername" ∧
      (update_computer_state "WKS-2002" stApproved).state "computer_status" =
        stApproved "computer_status") :=
  ⟨⟨by decide, (C1_amended "Zoom" stApproved "software_status").1 (by decide)⟩,
   ⟨by decide, (C1_amended "WKS-2002" stApproved "computer_status").2 (by decide)⟩⟩

/-- Claim C2 counterexample: on a session state holding only the three
collected facts — no approval status, no validation status, no confirmation —
`deploy_software` still issues the remote call (remoteCalls = 1), although the
claim requires no call for any state violating one of its four conjuncts. -/
theorem C2_counterexample :
    stThreeFacts "software_status" = none ∧
    stThreeFacts "computer_status" = none ∧
    stThreeFacts "confirmation" = none ∧
    (deploy_software envBoth (.ok "token") (.ok "Success") stThreeFacts).remoteCalls = 1 := by
  refine ⟨rfl, rfl, rfl, rfl⟩

/-- Claim C2 amended: `deploy_software` issues the remote POST if and only if
the deploy URL environment variable is set and non-empty, `software_name`,
`computername` and `username` are all present and non-empty, and the token
fetch succeeds; the tool itself checks no approval or validation status and no
confirmation gate (those checks live only in the agent's natural-language
instruction). -/
theorem C2_amended (env : Env) (tok : TokenFetch) (rem : Remote) (st : State) :
    (deploy_software env tok rem st).remoteCalls = 1 ↔
      (truthy env.deploySoftwareUrl = true ∧
       (truthy (st "software_name") && truthy (st "computername") &&
         truthy (st "username")) = true ∧
       ∃ t, tok = TokenFetch.ok t) := by
  unfold deploy_software
  cases hu : truthy env.deploySoftwareUrl with
  | false => simp [hu]
  | true =>
    cases h3 : (truthy (st "software_name") && truthy (st "computername") &&
        truthy (st "username")) with
    | false => simp [h3]
    | true =>
      cases tok with
      | err d => simp [hu, h3]
      | ok t => cases rem <;> simp [hu, h3]

/-- Claim C3 counterexample: when the wait bound elapses (the POST times out)
both gateway tools return a result whose status field is "success" — the very
success variant — not a distinct inconclusive variant. -/
theorem C3_counterexample :
    (validate_workstation envBoth (.ok "token") .timeout stThreeFacts).res.status = "success" ∧
    (deploy_software envBoth (.ok "token") .timeout stThreeFacts).res.status = "success" := by
  exact ⟨rfl, rfl⟩

/-- Claim C3 amended: each gateway tool returns a dict whose status is either
"success" or "error" (no third status value exists); when the wait bound
elapses with no response the returned dict has status "success" together with
a fixed message noting the timeout, so the timeout case is distinguishable
from other outcomes only by its message text, is reported as a soft success,
and is never a failure variant. -/
theorem C3_amended (env : Env) (tok : TokenFetch) (rem : Remote) (st : State) :
    ((validate_workstation env tok rem st).res.status = "success" ∨
      (validate_workstation env tok rem st).res.status = "error") ∧
    ((deploy_software env tok rem st).res.status = "success" ∨
      (deploy_software env tok rem st).res.status = "error") ∧
    (∀ t, truthy env.validateComputerUrl = true → truthy (st "computername") = true →
      (validate_workstation env (.ok t) .timeout st).res = ⟨"success", timeoutResultMsg⟩) ∧
    (∀ t, truthy env.deploySoftwareUrl = true →
      (truthy (st "software_name") && truthy (st "computername") &&
        truthy (st "username")) = true →
      (deploy_software env (.ok t) .timeout st).res = ⟨"success", timeoutResultMsg⟩) ∧
    timeoutResultMsg ≠ techErrorResultMsg := by
  refine ⟨?_, ?_, ?_, ?_, by decide⟩
  · unfold validate_workstation
    cases hu : truthy env.validateComputerUrl
    · simp
    · cases hc : truthy (st "computername")
      · simp
      · cases tok with
        | err d => simp
        | ok t => cases rem <;> simp
  · unfold deploy_software
    cases hu : truthy env.deploySoftwareUrl
    · simp
    · cases h3 : (truthy (st "software_name") && truthy (st "computername") &&
          truthy (st "username"))
      · simp
      · cases tok with
        | err d => simp
        | ok t => cases rem <;> simp
  · intro t hu hc
    simp [validate_workstation, hu, hc]
  · intro t hu h3
    simp [deploy_software, hu, h3]

/-- Witness for the amended claim C3 at a concrete timed-out invocation. -/
theorem C3_amended_witness :
    (truthy envBoth.validateComputerUrl = true ∧
      truthy (stThreeFacts "computername") = true ∧
      truthy envBoth.deploySoftwareUrl = true ∧
      (truthy (stThreeFacts "software_name") && truthy (stThreeFacts "computername") &&
        truthy (stThreeFacts "username")) = true) ∧
    (validate_workstation envBoth (.ok "token") .timeout stThreeFacts).res =
      ⟨"success", timeoutResultMsg⟩ ∧
    (deploy_software envBoth (.ok "token") .timeout stThreeFacts).res =
      ⟨"success", timeoutResultMsg⟩ :=
  ⟨⟨rfl, rfl, rfl, rfl⟩,
   (C3_amended envBoth (.ok "token") .timeout stThreeFacts).2.2.1 "token" rfl rfl,
   (C3_amended envBoth (.ok "token") .timeout stThreeFacts).2.2.2.1 "token" rfl rfl⟩

/-- Claim C4: every invocation of either gateway tool issues at most one
remote POST; an invocation whose POST times out issues exactly one POST (never
an automatic second attempt) and its result is the soft-success timeout dict,
never the rejected/technical-error classification. -/
theorem C4_single_attempt (env : Env) (tok : TokenFetch) (rem : Remote) (st : State) :
    (validate_workstation env tok rem st).remoteCalls ≤ 1 ∧
    (deploy_software env tok rem st).remoteCalls ≤ 1 ∧
    (∀ t, truthy env.validateComputerUrl = true → truthy (st "computername") = true →
      (validate_workstation env (.ok t) .timeout st).remoteCalls = 1 ∧
      (validate_workstation env (.ok t) .timeout st).res.status = "success" ∧
      (validate_workstation env (.ok t) .timeout st).res.result ≠ techErrorResultMsg) ∧
    (∀ t, truthy env.deploySoftwareUrl = true →
      (truthy (st "software_name") && truthy (st "computername") &&
        truthy (st "username")) = true →
      (deploy_software env (.ok t) .timeout st).remoteCalls = 1 ∧
      (deploy_software env (.ok t) .timeout st).res.status = "success" ∧
      (deploy_software env (.ok t) .timeout st).res.result ≠ techErrorResultMsg) := by
  refine ⟨?_, ?_, ?_, ?_⟩
  · unfold validate_workstation
    cases hu : truthy env.validateComputerUrl
    · simp
    · cases hc : truthy (st "computername")
      · simp
      · cases tok with
        | err d => simp
        | ok t => cases rem <;> simp
  · unfold deploy_software
    cases hu : truthy env.deploySoftwareUrl
    · simp
    · cases h3 : (truthy (st "software_name") && truthy (st "computername") &&
          truthy (st "username"))
      · simp
      · cases tok with
        | err d => simp
        | ok t => cases rem <;> simp
  · intro t hu hc
    refine ⟨?_, ?_, ?_⟩ <;> simp [validate_workstation, hu, hc]
    decide
  · intro t hu h3
    refine ⟨?_, ?_, ?_⟩ <;> simp [deploy_software, hu, h3]
    decide

/-- Witness for claim C4 at a concrete timed-out invocation. -/
theorem C4_single_attempt_witness :
    (truthy envBoth.validateComputerUrl = true ∧
      truthy (stThreeFacts "computername") = true ∧
      truthy envBoth.deploySoftwareUrl = true ∧
      (truthy (stThreeFacts "software_name") && truthy (stThreeFacts "computername") &&
        truthy (stThreeFacts "username")) = true) ∧
    (validate_workstation envBoth (.ok "token") .timeout stThreeFacts).remoteCalls = 1 ∧
    (deploy_software envBoth (.ok "token") .timeout stThreeFacts).remoteCalls = 1 :=
  ⟨⟨rfl, rfl, rfl, rfl⟩,
   ((C4_single_attempt envBoth (.ok "token") .timeout stThreeFacts).2.2.1 "token" rfl rfl).1,
   ((C4_single_attempt envBoth (.ok "token") .timeout stThreeFacts).2.2.2 "token" rfl rfl).1⟩

/-- Claim C10: when validate_workstation's POST times out, the tool returns
status "success", and its message is exactly the same fixed text as
deploy_software's timeout branch — the text beginning "The deployment has been
started" — so a validation timeout is reported to the caller as a started
deployment. -/
theorem C10_validation_timeout_reports_deployment (env env2 : Env) (t t2 : String)
    (st st2 : State)
    (hu : truthy env.validateComputerUrl = true)
    (hc : truthy (st "computername") = true)
    (hd : truthy env2.deploySoftwareUrl = true)
    (h3 : (truthy (st2 "software_name") && truthy (st2 "computername") &&
      truthy (st2 "username")) = true) :
    (validate_workstation env (.ok t) .timeout st).res.status = "success" ∧
    (validate_workstation env (.ok t) .timeout st).res.result =
      (deploy_software env2 (.ok t2) .timeout st2).res.result ∧
    (validate_workstation env (.ok t) .timeout st).res.result = timeoutResultMsg := by
  refine ⟨?_, ?_, ?_⟩ <;> simp [validate_workstation, deploy_software, hu, hc, hd, h3]

/-- Witness for claim C10 at a concrete timed-out validation. -/
theorem C10_witness :
    (truthy envBoth.validateComputerUrl = true ∧
      truthy (stThreeFacts "computername") = true ∧
      truthy envBoth.deploySoftwareUrl = true ∧
      (truthy (stThreeFacts "software_name") && truthy (stThreeFacts "computername") &&
        truthy (stThreeFacts "username")) = true) ∧
    (validate_workstation envBoth (.ok "token") .timeout stThreeFacts).res.status = "success" ∧
    (validate_workstation envBoth (.ok "token") .timeout stThreeFacts).res.result =
      timeoutResultMsg :=
  ⟨⟨rfl, rfl, rfl, rfl⟩,
   (C10_validation_timeout_reports_deployment envBoth envBoth "token" "token"
      stThreeFacts stThreeFacts rfl rfl rfl rfl).1,
   (C10_validation_timeout_reports_deployment envBoth envBoth "token" "token"
      stThreeFacts stThreeFacts rfl rfl rfl rfl).2.2⟩

/-- Claim C5 counterexample: with the endpoint environment variable unset and
the computer name absent, validate_workstation returns the generic
technical-error result, not the missing-input result: the URL check precedes
the missing-field check, so this invocation with absent input does not fail
with MissingInput. (No remote call is made either way.) -/
theorem C5_counterexample :
    stEmpty "computername" = none ∧
    (validate_workstation envNone (.ok "token") (.ok "Success") stEmpty).res.result =
      techErrorResultMsg ∧
    (validate_workstation envNone (.ok "token") (.ok "Success") stEmpty).res.result ≠
      validateMissingMsg ∧
    (validate_workstation envNone (.ok "token") (.ok "Success") stEmpty).remoteCalls = 0 := by
  refine ⟨rfl, rfl, by decide, rfl⟩

/-- Claim C5 amended: provided the corresponding endpoint environment variable
is set and non-empty, an invocation of validate_workstation with the computer
name absent or empty, and an invocation of deploy_software with any of the
three facts absent or empty, fails immediately with the missing-input result
and issues no remote call; when the environment variable is unset the same
invocations instead return the generic technical-error result (still with no
remote call). -/
theorem C5_amended (env : Env) (tok : TokenFetch) (rem : Remote) (st : State) :
    (truthy env.validateComputerUrl = true → truthy (st "computername") = false →
      validate_workstation env tok rem st = ⟨⟨"error", validateMissingMsg⟩, 0⟩) ∧
    (truthy env.deploySoftwareUrl = true →
      (truthy (st "software_name") && truthy (st "computername") &&
        truthy (st "username")) = false →
      deploy_software env tok rem st = ⟨⟨"error", deployMissingMsg st⟩, 0⟩) ∧
    (truthy env.validateComputerUrl = false →
      validate_workstation env tok rem st = ⟨⟨"error", techErrorResultMsg⟩, 0⟩) ∧
    (truthy env.deploySoftwareUrl = false →
      deploy_software env tok rem st = ⟨⟨"error", techErrorResultMsg⟩, 0⟩) := by
  refine ⟨?_, ?_, ?_, ?_⟩
  · intro hu hc
    simp [validate_workstation, hu, hc]
  · intro hu h3
    simp [deploy_software, hu, h3]
  · intro hu
    simp [validate_workstation, hu]
  · intro hu
    simp [deploy_software, hu]

/-- Witness for the amended claim C5 at concrete missing-input invocations. -/
theorem C5_amended_witness :
    (truthy envBoth.validateComputerUrl = true ∧
      truthy (stEmpty "computername") = false ∧
      truthy envBoth.deploySoftwareUrl = true ∧
      (truthy (stEmpty "software_name") && truthy (stEmpty "computername") &&
        truthy (stEmpty "username")) = false) ∧
    validate_workstation envBoth (.ok "token") (.ok "Success") stEmpty =
      ⟨⟨"error", validateMissingMsg⟩, 0⟩ ∧
    deploy_software envBoth (.ok "token") (.ok "Success") stEmpty =
      ⟨⟨"error", deployMissingMsg stEmpty⟩, 0⟩ :=
  ⟨⟨rfl, rfl, rfl, rfl⟩,
   (C5_amended envBoth (.ok "token") (.ok "Success") stEmpty).1 rfl rfl,
   (C5_amended envBoth (.ok "token") (.ok "Success") stEmpty).2.1 rfl rfl⟩

/-- A concrete session state whose stored software name is not approved. -/
def stPhotoshop : State := fun k =>
  if k = "software_name" then some "Photoshop2" else none

/-- Claim C6: for every stored non-empty software name,
verify_software_availability returns status "success" iff the name matches
some entry of the approved list under case-insensitive exact comparison;
otherwise it returns status "fail" with a message listing the approved set
verbatim (the comma-joined list). The tool only reports; it advances nothing,
and the agent instruction mandates "Do not proceed" on the fail result. -/
theorem C6_verify_membership (approved : List String) (st : State) (s : String)
    (hs : st "software_name" = some s) (hne : s ≠ "") :
    ((verify_software_availability approved st).status = "success" ↔
      ∃ a ∈ approved, lowerStr a = lowerStr s) ∧
    ((¬ ∃ a ∈ approved, lowerStr a = lowerStr s) →
      verify_software_availability approved st =
        ⟨"fail", "Software " ++ sq ++ s ++ sq ++
          " is not an approved software. Please choose from: " ++
          String.intercalate ", " approved ++ "."⟩) := by
  have hie : s.isEmpty = false := by
    rw [Bool.eq_false_iff]
    intro hb
    exact hne ((String.isEmpty_iff s).mp hb)
  by_cases hex : ∃ a ∈ approved, lowerStr a = lowerStr s
  · constructor
    · simp [verify_software_availability, hs, truthy, hie, pyStr, hex]
    · intro hnot
      exact absurd hex hnot
  · constructor
    · simp [verify_software_availability, hs, truthy, hie, pyStr, hex]
    · intro _
      simp [verify_software_availability, hs, truthy, hie, pyStr, hex]

/-- Witness for claim C6: "Zoom" is accepted against the approved list, and
"Photoshop2" is rejected with the message listing the approved set. -/
theorem C6_witness :
    (stThreeFacts "software_name" = some "Zoom" ∧ ("Zoom" : String) ≠ "" ∧
      stPhotoshop "software_name" = some "Photoshop2" ∧ ("Photoshop2" : String) ≠ "" ∧
      ¬ ∃ a ∈ APPROVED_SOFTWARE_LIST, lowerStr a = lowerStr ("Photoshop2" : String)) ∧
    ((verify_software_availability APPROVED_SOFTWARE_LIST stThreeFacts).status = "success" ↔
      ∃ a ∈ APPROVED_SOFTWARE_LIST, lowerStr a = lowerStr ("Zoom" : String)) ∧
    verify_software_availability APPROVED_SOFTWARE_LIST stPhotoshop =
      ⟨"fail", "Software " ++ sq ++ "Photoshop2" ++ sq ++
        " is not an approved software. Please choose from: " ++
        String.intercalate ", " APPROVED_SOFTWARE_LIST ++ "."⟩ :=
  ⟨⟨rfl, by decide, rfl, by decide, by decide⟩,
   (C6_verify_membership APPROVED_SOFTWARE_LIST stThreeFacts "Zoom" rfl (by decide)).1,
   (C6_verify_membership APPROVED_SOFTWARE_LIST stPhotoshop "Photoshop2" rfl
      (by decide)).2 (by decide)⟩

/-- Claim C7: every technical-error outcome of either gateway tool — missing
or empty endpoint configuration, token fetch failure, HTTP error status, or
any other transport failure — carries exactly the fixed generic message; the
result is the same constant for every error detail string, status code, token
and endpoint URL (all quantified here), so it reveals none of them. -/
theorem C7_generic_error_message (env : Env) (tok : TokenFetch) (rem : Remote) (st : State)
    (t d : String) (c : Nat) :
    (truthy env.validateComputerUrl = false →
      (validate_workstation env tok rem st).res = ⟨"error", techErrorResultMsg⟩) ∧
    (truthy env.deploySoftwareUrl = false →
      (deploy_software env tok rem st).res = ⟨"error", techErrorResultMsg⟩) ∧
    (truthy env.validateComputerUrl = true → truthy (st "computername") = true →
      (validate_workstation env (.err d) rem st).res = ⟨"error", techErrorResultMsg⟩ ∧
      (validate_workstation env (.ok t) (.httpError c d) st).res = ⟨"error", techErrorResultMsg⟩ ∧
      (validate_workstation env (.ok t) (.transportError d) st).res =
        ⟨"error", techErrorResultMsg⟩) ∧
    (truthy env.deploySoftwareUrl = true →
      (truthy (st "software_name") && truthy (st "computername") &&
        truthy (st "username")) = true →
      (deploy_software env (.err d) rem st).res = ⟨"error", techErrorResultMsg⟩ ∧
      (deploy_software env (.ok t) (.httpError c d) st).res = ⟨"error", techErrorResultMsg⟩ ∧
      (deploy_software env (.ok t) (.transportError d) st).res =
        ⟨"error", techErrorResultMsg⟩) := by
  refine ⟨?_, ?_, ?_, ?_⟩
  · intro hu
    simp [validate_workstation, hu]
  · intro hd
    simp [deploy_software, hd]
  · intro hu hc
    refine ⟨?_, ?_, ?_⟩ <;> simp [validate_workstation, hu, hc]
  · intro hd h3
    rw [Bool.and_eq_true, Bool.and_eq_true] at h3
    obtain ⟨⟨ha, hb⟩, hcu⟩ := h3
    refine ⟨?_, ?_, ?_⟩ <;> simp [deploy_software, hd, ha, hb, hcu]

/-- Witness for claim C7 at concrete failing invocations, one per cause kind:
unset endpoint variable, HTTP error status, and token fetch failure. -/
theorem C7_witness :
    (truthy envNone.validateComputerUrl = false ∧
      truthy envBoth.validateComputerUrl = true ∧
      truthy (stThreeFacts "computername") = true ∧
      truthy envBoth.deploySoftwareUrl = true ∧
      (truthy (stThreeFacts "software_name") && truthy (stThreeFacts "computername") &&
        truthy (stThreeFacts "username")) = true) ∧
    (validate_workstation envNone (.ok "token") (.ok "Success") stThreeFacts).res =
      ⟨"error", techErrorResultMsg⟩ ∧
    (validate_workstation envBoth (.ok "token") (.httpError 403 "Forbidden")
      stThreeFacts).res = ⟨"error", techErrorResultMsg⟩ ∧
    (deploy_software envBoth (.err "auth backend down") (.ok "irrelevant")
      stThreeFacts).res = ⟨"error", techErrorResultMsg⟩ :=
  ⟨⟨rfl, rfl, rfl, rfl, rfl⟩,
   (C7_generic_error_message envNone (.ok "token") (.ok "Success") stThreeFacts
      "token" "Forbidden" 403).1 rfl,
   ((C7_generic_error_message envBoth (.ok "token") (.httpError 403 "Forbidden") stThreeFacts
      "token" "Forbidden" 403).2.2.1 rfl rfl).2.1,
   ((C7_generic_error_message envBoth (.err "auth backend down") (.ok "irrelevant") stThreeFacts
      "token" "auth backend down" 403).2.2.2 rfl rfl).1⟩

/-- The deploy missing-input message always begins with the character D, for
any session state. -/
theorem deployMissingMsg_head (x : String) :
    ("Deployment failed: One or more parameters were missing from the conversation. Software:" ++
      x).data.head? = some (Char.ofNat 68) := by
  cases x with
  | mk d => rfl

/-- The deploy missing-input message never equals the generic technical-error
message, whatever the three session values are. -/
theorem deployMissingMsg_ne_techError (st : State) : deployMissingMsg st ≠ techErrorResultMsg := by
  intro h
  have h2 : (deployMissingMsg st).data.head? = some (Char.ofNat 68) := by
    unfold deployMissingMsg
    exact deployMissingMsg_head _
  rw [h] at h2
  exact absurd h2 (by decide)

/-- Claim C8 counterexample: with the deploy endpoint variable unset, an
invocation of deploy_software whose required inputs are all absent returns
exactly the generic technical-error result — the missing field is surfaced as
a technical failure, and no missing-input result is returned at all. -/
theorem C8_counterexample :
    stEmpty "software_name" = none ∧
    (deploy_software envNone (.ok "token") (.ok "Success") stEmpty).res =
      ⟨"error", techErrorResultMsg⟩ ∧
    (deploy_software envNone (.ok "token") (.ok "Success") stEmpty).res.result ≠
      deployMissingMsg stEmpty := by
  refine ⟨rfl, rfl, by decide⟩

/-- Claim C8 amended: provided the endpoint environment variable is set, a
gateway invocation with a required field absent returns the missing-input
result, and that result is distinguishable from the technical-error result:
its message always differs from the generic technical-error message (both
share the status tag "error"; the distinction lies in the message text). -/
theorem C8_amended (env : Env) (tok : TokenFetch) (rem : Remote) (st : State) :
    (truthy env.validateComputerUrl = true → truthy (st "computername") = false →
      (validate_workstation env tok rem st).res.result = validateMissingMsg ∧
      (validate_workstation env tok rem st).res.status = "error") ∧
    validateMissingMsg ≠ techErrorResultMsg ∧
    (truthy env.deploySoftwareUrl = true →
      (truthy (st "software_name") && truthy (st "computername") &&
        truthy (st "username")) = false →
      (deploy_software env tok rem st).res.result = deployMissingMsg st ∧
      (deploy_software env tok rem st).res.status = "error") ∧
    deployMissingMsg st ≠ techErrorResultMsg := by
  refine ⟨?_, by decide, ?_, deployMissingMsg_ne_techError st⟩
  · intro hu hc
    constructor <;> simp [validate_workstation, hu, hc]
  · intro hd h3
    constructor <;> simp [deploy_software, hd, h3]

/-- Witness for the amended claim C8 at a concrete missing-input invocation. -/
theorem C8_amended_witness :
    (truthy envBoth.validateComputerUrl = true ∧
      truthy (stEmpty "computername") = false ∧
      truthy envBoth.deploySoftwareUrl = true ∧
      (truthy (stEmpty "software_name") && truthy (stEmpty "computername") &&
        truthy (stEmpty "username")) = false) ∧
    (validate_workstation envBoth (.ok "token") (.ok "Success") stEmpty).res.result =
      validateMissingMsg ∧
    deployMissingMsg stEmpty ≠ techErrorResultMsg :=
  ⟨⟨rfl, rfl, rfl, rfl⟩,
   ((C8_amended envBoth (.ok "token") (.ok "Success") stEmpty).1 rfl rfl).1,
   (C8_amended envBoth (.ok "token") (.ok "Success") stEmpty).2.2.2⟩
